import Mathlib

/-!
Verification development for the `whinator` webhook service
(src/src/lib.rs, src/src/bin/receiver.rs).

The service accepts a JSON webhook payload, creates a fresh deno_core
JsRuntime per request, binds the payload as the global `body`, evaluates
the fixed script `body.pull_request.url;`, and deserializes the result
back into JSON.  The HTTP layer maps success to 200 / empty body and any
failure to 500 with a text message.

The scripting engine (V8 via deno_core), the value bridge
(serde_v8) and the configuration crate are external dependencies whose
code is not part of this repository; their behaviour is modelled from
the specification (definitions marked `Modelled from the spec:`).
Everything else is translated directly from src/src/lib.rs.
-/

namespace Whinator

/-- The JSON data model (serde_json::Value).  Numbers are modelled as
integers; the safe-range side condition appears where a claim needs it.
Objects are association lists of string keys to values. -/
inductive Json where
  | null : Json
  | bool : Bool → Json
  | num : Int → Json
  | str : String → Json
  | arr : List Json → Json
  | obj : List (String × Json) → Json

/-- Modelled from the spec: the native value model of the scripting
engine (V8).  It extends JSON with the absent-value sentinel
`undefined` and with function (callable) values, which have no JSON
representation. -/
inductive V8Value where
  | undefined : V8Value
  | vnull : V8Value
  | vbool : Bool → V8Value
  | vnum : Int → V8Value
  | vstr : String → V8Value
  | varr : List V8Value → V8Value
  | vobj : List (String × V8Value) → V8Value
  | vfun : V8Value

/-- Errors of the value bridge when a value has no JSON representation. -/
inductive SerErr where
  | unsupportedType : SerErr
  | cyclic : SerErr
  | invalidRef : SerErr
deriving DecidableEq

mutual

/-- Modelled from the spec: `toEngine` direction of the Value Bridge
(serde_v8::to_v8 at src/src/lib.rs:77) — structural, recursive,
type-preserving conversion of a JSON value into the engine value
model. -/
def toV8 : Json → V8Value
  | .null => .vnull
  | .bool b => .vbool b
  | .num n => .vnum n
  | .str s => .vstr s
  | .arr xs => .varr (toV8List xs)
  | .obj kvs => .vobj (toV8Obj kvs)

/-- Element-wise conversion of a JSON array. -/
def toV8List : List Json → List V8Value
  | [] => []
  | x :: xs => toV8 x :: toV8List xs

/-- Field-wise conversion of a JSON object, keys copied verbatim. -/
def toV8Obj : List (String × Json) → List (String × V8Value)
  | [] => []
  | (k, v) :: kvs => (k, toV8 v) :: toV8Obj kvs

end

mutual

/-- Modelled from the spec: `fromEngine` direction of the Value Bridge
(serde_v8::from_v8 at src/src/lib.rs:92) on tree-shaped engine values —
the inverse conversion, failing on values with no JSON representation
(callables).  The absent-value sentinel `undefined` converts to JSON
null. -/
def fromV8 : V8Value → Except SerErr Json
  | .undefined => .ok .null
  | .vnull => .ok .null
  | .vbool b => .ok (.bool b)
  | .vnum n => .ok (.num n)
  | .vstr s => .ok (.str s)
  | .varr vs => (fromV8List vs).map Json.arr
  | .vobj fvs => (fromV8Obj fvs).map Json.obj
  | .vfun => .error .unsupportedType

/-- Element-wise inverse conversion of an engine array. -/
def fromV8List : List V8Value → Except SerErr (List Json)
  | [] => .ok []
  | v :: vs => do
      let j ← fromV8 v
      let js ← fromV8List vs
      .ok (j :: js)

/-- Field-wise inverse conversion of an engine object. -/
def fromV8Obj : List (String × V8Value) → Except SerErr (List (String × Json))
  | [] => .ok []
  | (k, v) :: fvs => do
      let j ← fromV8 v
      let js ← fromV8Obj fvs
      .ok ((k, j) :: js)

end

mutual

/-- Number-safety predicate of the round-trip claim: every number in the
JSON value lies within the safely representable integer range of the
engine (|n| ≤ 2^53). -/
def safeNumbers : Json → Bool
  | .null => true
  | .bool _ => true
  | .num n => n.natAbs ≤ 2 ^ 53
  | .str _ => true
  | .arr xs => safeNumbersList xs
  | .obj kvs => safeNumbersObj kvs

/-- Number safety of every element of a JSON array. -/
def safeNumbersList : List Json → Bool
  | [] => true
  | x :: xs => safeNumbers x && safeNumbersList xs

/-- Number safety of every field of a JSON object. -/
def safeNumbersObj : List (String × Json) → Bool
  | [] => true
  | (_, v) :: kvs => safeNumbers v && safeNumbersObj kvs

end

example : fromV8 (toV8 (.obj [("a", .num 3), ("b", .arr [.null, .str "x"])]))
    = .ok (.obj [("a", .num 3), ("b", .arr [.null, .str "x"])]) := rfl

/-- Modelled from the spec: an ephemeral, isolated scripting environment
(the global object of one JsRuntime).  Its state is the set of global
bindings, as an association list where the most recent binding of a name
shadows older ones. -/
structure ScriptContext where
  globals : List (String × V8Value)

/-- A brand-new, empty scripting context, as created by
JsRuntime::new(Default::default()) at src/src/lib.rs:71. -/
def ScriptContext.new : ScriptContext := ⟨[]⟩

/-- Binding a global variable in a context
(global.set at src/src/lib.rs:81-83). -/
def ScriptContext.setGlobal (ctx : ScriptContext) (name : String)
    (v : V8Value) : ScriptContext :=
  ⟨(name, v) :: ctx.globals⟩

/-- Reading a global property of the context (a property of the global
object, e.g. `globalThis.x` or the bare global `body`); a missing global
reads as the absent-value sentinel `undefined`. -/
def ScriptContext.getGlobal (ctx : ScriptContext) (name : String) : V8Value :=
  (ctx.globals.lookup name).getD .undefined

/-- Modelled from the spec: runtime errors of script evaluation, carrying
the offending property name — thrown when a property of the undefined or
null sentinel is read. -/
inductive JsError where
  | typeError : String → JsError
deriving DecidableEq

/-- Modelled from the spec: abstract syntax of the operator-supplied
script expressions the spec discusses — literals, reads and writes of
globals on the global object, and property access chains such as
`body.pull_request.url`. -/
inductive Expr where
  | lit : V8Value → Expr
  | globalGet : String → Expr
  | globalSet : String → Expr → Expr
  | propGet : Expr → String → Expr

/-- Modelled from the spec: evaluation of a script expression inside a
context.  Reading a missing property of an object follows the absent
property semantics of the language and yields `undefined`; reading a
property of `undefined` or `null` raises a runtime TypeError; global
assignment mutates the context. -/
def evalExpr : ScriptContext → Expr → Except JsError (ScriptContext × V8Value)
  | ctx, .lit v => .ok (ctx, v)
  | ctx, .globalGet name => .ok (ctx, ctx.getGlobal name)
  | ctx, .globalSet name e => do
      let (ctx1, v) ← evalExpr ctx e
      .ok (ctx1.setGlobal name v, v)
  | ctx, .propGet e p => do
      let (ctx1, v) ← evalExpr ctx e
      match v with
      | .undefined => .error (.typeError p)
      | .vnull => .error (.typeError p)
      | .vobj fields => .ok (ctx1, (fields.lookup p).getD .undefined)
      | _ => .ok (ctx1, .undefined)

/-- The fixed, operator-configured script source of the handler:
`body.pull_request.url;` (src/src/lib.rs:86). -/
def handlerSource : Expr :=
  .propGet (.propGet (.globalGet "body") "pull_request") "url"

/-- The error enum of src/src/lib.rs:10-25, one constructor per variant;
each variant carries the message of the wrapped underlying error
(all variants but the last are transparent wrappers). -/
inductive Error where
  | Config : String → Error
  | AddrParse : String → Error
  | HyperError : String → Error
  | DenoCore : String → Error
  | DenoSerdeV8 : String → Error
  | JSRuntimePassError : Error
deriving DecidableEq

/-- The Display rendering of an Error value: transparent variants show
the wrapped message, and JSRuntimePassError shows the fixed text of its
error attribute (src/src/lib.rs:23-24). -/
def Error.message : Error → String
  | .Config m => m
  | .AddrParse m => m
  | .HyperError m => m
  | .DenoCore m => m
  | .DenoSerdeV8 m => m
  | .JSRuntimePassError => "body could not be passed to js runtime"

/-- The message of a runtime TypeError, as surfaced through the anyhow
error of execute_script. -/
def JsError.message : JsError → String
  | .typeError p =>
      "TypeError: Cannot read properties of undefined (reading " ++ p ++ ")"

/-- The message of a serde_v8 conversion error. -/
def SerErr.message : SerErr → String
  | .unsupportedType => "serde_v8 error: unsupported type"
  | .cyclic => "serde_v8 error: cyclic structure"
  | .invalidRef => "serde_v8 error: invalid reference"

/-- The body of real_handler (src/src/lib.rs:69-98), generic in the two
steps that can fail before evaluation: the payload conversion into the
engine value model (serde_v8::to_v8, line 77, an Err converts into
Error::DenoSerdeV8 via the question-mark operator) and the engine
accepting the key string and the global binding (lines 79-84, a None
becomes Error::JSRuntimePassError).  The second component counts how
many times the script source was evaluated (execute_script_static,
line 86; its error converts into Error::DenoCore).  On successful
evaluation the result converts back to JSON (serde_v8::from_v8,
line 92). -/
def realHandlerGen (toEngine : Json → Except Error V8Value)
    (bindOk : Bool) (source : Expr) (body : Json) :
    Except Error Json × Nat :=
  match toEngine body with
  | .error e => (.error e, 0)
  | .ok bodyValue =>
    if bindOk then
      let ctx := ScriptContext.new.setGlobal "body" bodyValue
      match evalExpr ctx source with
      | .error e => (.error (.DenoCore e.message), 1)
      | .ok (_, result) =>
        match fromV8 result with
        | .error e => (.error (.DenoSerdeV8 e.message), 1)
        | .ok json => (.ok json, 1)
    else
      (.error .JSRuntimePassError, 0)

/-- One evaluation of the Script Host as real_handler performs it: a
fresh context, the payload bound as the global `body` via the bridge,
the source evaluated, the result extracted back to JSON.  The returned
JSON value is the one real_handler logs (src/src/lib.rs:96); the caller
only observes success or failure. -/
def runEvaluation (source : Expr) (body : Json) : Except Error Json :=
  (realHandlerGen (fun b => .ok (toV8 b)) true source body).1

/-- real_handler itself (src/src/lib.rs:69-98): the fixed script source
run against the payload, the extracted value discarded. -/
def realHandler (body : Json) : Except Error Unit :=
  (runEvaluation handlerSource body).map (fun _ => ())

/-- handle_webhook (src/src/lib.rs:56-67): status 200 with empty body
when real_handler succeeds, status 500 with the formatted error text
when it fails. -/
def handleWebhook (body : Json) : Nat × String :=
  match realHandler body with
  | .ok _ => (200, "")
  | .error err => (500, "Something went wrong: " ++ err.message)

example : runEvaluation handlerSource
    (.obj [("pull_request", .obj [("url", .str "http://example.com")])])
    = .ok (.str "http://example.com") := rfl

example : runEvaluation (.propGet (.globalGet "body") "missing") (.obj [])
    = .ok .null := rfl

example : handleWebhook (.obj []) = (500,
    "Something went wrong: TypeError: Cannot read properties of undefined (reading url)") := rfl

/-- The variant tags of the Error enum (src/src/lib.rs:10-25), used to
speak about which variant a failure is reported under. -/
inductive ErrorKind where
  | config : ErrorKind
  | addrParse : ErrorKind
  | hyper : ErrorKind
  | denoCore : ErrorKind
  | denoSerdeV8 : ErrorKind
  | jsRuntimePass : ErrorKind
deriving DecidableEq

/-- The variant tag of an Error value. -/
def Error.kind : Error → ErrorKind
  | .Config _ => .config
  | .AddrParse _ => .addrParse
  | .HyperError _ => .hyper
  | .DenoCore _ => .denoCore
  | .DenoSerdeV8 _ => .denoSerdeV8
  | .JSRuntimePassError => .jsRuntimePass

/-- The per-request failure sites of real_handler. -/
inductive FailureSite where
  | injectionConvert : FailureSite
  | bindingRefused : FailureSite
  | compile : FailureSite
  | runtime : FailureSite
  | resultSerialize : FailureSite
deriving DecidableEq

/-- Which Error variant each failure site of real_handler is reported
under, following the question-mark conversions of src/src/lib.rs:
a serde_v8::to_v8 failure (line 77) converts via the transparent
From impl into Error::DenoSerdeV8; a refused key string or global
binding (lines 79-84) becomes Error::JSRuntimePassError via ok_or;
execute_script_static (line 86) returns a single
deno_core::anyhow::Error for both invalid syntax and exceptions thrown
during evaluation, converting into Error::DenoCore; a
serde_v8::from_v8 failure (line 92) converts into Error::DenoSerdeV8. -/
def siteVariant : FailureSite → ErrorKind
  | .injectionConvert => .denoSerdeV8
  | .bindingRefused => .jsRuntimePass
  | .compile => .denoCore
  | .runtime => .denoCore
  | .resultSerialize => .denoSerdeV8

/-- The configuration record of src/src/lib.rs:29-32: the single
recognized option listen. -/
structure Config where
  listen : String
deriving DecidableEq

/-- Modelled from the spec: load_config (src/src/lib.rs:34-43) via the
builder semantics of the configuration crate — the default
listen = 0.0.0.0:3000 is set first, then an optional file source at the
fixed path /etc/whinator.yaml is merged (required false: a missing file
is not an error).  The file is modelled as none when absent, or some
with its optional listen entry, which overrides the default when
present. -/
def load_config (file : Option (Option String)) : Except Error Config :=
  match file with
  | none => .ok ⟨"0.0.0.0:3000"⟩
  | some none => .ok ⟨"0.0.0.0:3000"⟩
  | some (some s) => .ok ⟨s⟩

/-- Sequential processing of two webhook requests.  real_handler keeps
no state outside its own body (src/src/lib.rs has no static or shared
mutable state) and constructs a fresh JsRuntime at line 71 of every
invocation, so two sequential invocations compose as two independent
evaluations. -/
def runTwoRequests (s1 : Expr) (p1 : Json) (s2 : Expr) (p2 : Json) :
    Except Error Json × Except Error Json :=
  (runEvaluation s1 p1, runEvaluation s2 p2)

/-- Modelled from the spec: nodes of the engine heap, used to represent
evaluation results that may be self-referential.  Arrays and objects
hold references (heap indices) rather than values, so a node can reach
itself. -/
inductive V8Node where
  | nUndefined : V8Node
  | nNull : V8Node
  | nBool : Bool → V8Node
  | nNum : Int → V8Node
  | nStr : String → V8Node
  | nFun : V8Node
  | nArr : List Nat → V8Node
  | nObj : List (String × Nat) → V8Node
deriving DecidableEq

/-- An engine heap: a finite store of nodes addressed by index. -/
abbrev V8Heap := List V8Node

mutual

/-- Modelled from the spec: the fromEngine conversion on (possibly
cyclic) heap values, with the mandatory cycle detection — `remaining`
holds the heap indices not on the current traversal path, so revisiting
an index on the path is reported as a cyclic-structure failure instead
of diverging; callables are reported as having no JSON
representation. -/
def fromV8Graph (h : V8Heap) (remaining : List Nat) (r : Nat) :
    Except SerErr Json :=
  if hr : r ∈ remaining then
    match h[r]? with
    | none => .error .invalidRef
    | some .nUndefined => .ok .null
    | some .nNull => .ok .null
    | some (.nBool b) => .ok (.bool b)
    | some (.nNum n) => .ok (.num n)
    | some (.nStr s) => .ok (.str s)
    | some .nFun => .error .unsupportedType
    | some (.nArr es) => (fromV8GraphList h (remaining.erase r) es).map Json.arr
    | some (.nObj fs) => (fromV8GraphObj h (remaining.erase r) fs).map Json.obj
  else .error .cyclic
termination_by (remaining.length, 0)
decreasing_by
  all_goals
    apply Prod.Lex.left
    have h1 := List.length_erase_of_mem hr
    have h2 := List.length_pos_of_mem hr
    omega

/-- Element-wise conversion of the references of a heap array. -/
def fromV8GraphList (h : V8Heap) (remaining : List Nat) :
    List Nat → Except SerErr (List Json)
  | [] => .ok []
  | r :: rs => do
      let j ← fromV8Graph h remaining r
      let js ← fromV8GraphList h remaining rs
      .ok (j :: js)
termination_by rs => (remaining.length, rs.length + 1)

/-- Field-wise conversion of the references of a heap object. -/
def fromV8GraphObj (h : V8Heap) (remaining : List Nat) :
    List (String × Nat) → Except SerErr (List (String × Json))
  | [] => .ok []
  | (k, r) :: fs => do
      let j ← fromV8Graph h remaining r
      let js ← fromV8GraphObj h remaining fs
      .ok ((k, j) :: js)
termination_by fs => (remaining.length, fs.length + 1)

end

/-- Modelled from the spec: the full fromEngine conversion of the heap
value rooted at index r, starting with every heap index available to the
traversal. -/
def fromEngineGraph (h : V8Heap) (r : Nat) : Except SerErr Json :=
  fromV8Graph h (List.range h.length) r

example : fromEngineGraph [.nObj [("self", 0)]] 0 = .error .cyclic := by
  have hin : fromV8Graph [V8Node.nObj [("self", 0)]] [] 0 = .error .cyclic := by
    rw [fromV8Graph]; simp
  have he : (List.range 1).erase 0 = ([] : List Nat) := rfl
  unfold fromEngineGraph
  rw [fromV8Graph]
  simp [he, fromV8GraphObj, hin, Bind.bind, Except.bind, Except.map]

example : fromEngineGraph [.nFun] 0 = .error .unsupportedType := by
  unfold fromEngineGraph
  rw [fromV8Graph]
  simp

mutual

/-- Round-trip of the Value Bridge on any tree-shaped JSON value. -/
theorem fromV8_toV8 : ∀ v : Json, fromV8 (toV8 v) = .ok v
  | .null => rfl
  | .bool _ => rfl
  | .num _ => rfl
  | .str _ => rfl
  | .arr xs => by rw [toV8, fromV8, fromV8List_toV8List xs]; rfl
  | .obj kvs => by rw [toV8, fromV8, fromV8Obj_toV8Obj kvs]; rfl

/-- Round-trip of the Value Bridge on the elements of a JSON array. -/
theorem fromV8List_toV8List : ∀ xs : List Json,
    fromV8List (toV8List xs) = .ok xs
  | [] => rfl
  | x :: xs => by
      rw [toV8List, fromV8List]
      simp [fromV8_toV8 x, fromV8List_toV8List xs, Bind.bind, Except.bind]

/-- Round-trip of the Value Bridge on the fields of a JSON object. -/
theorem fromV8Obj_toV8Obj : ∀ kvs : List (String × Json),
    fromV8Obj (toV8Obj kvs) = .ok kvs
  | [] => rfl
  | (k, v) :: kvs => by
      rw [toV8Obj, fromV8Obj]
      simp [fromV8_toV8 v, fromV8Obj_toV8Obj kvs, Bind.bind, Except.bind]

end

/-- C5.  Round-trip of the Value Bridge: for every JSON value in the
representable subset (tree-shaped by construction, numbers within the
safe range of the engine), converting into the engine value model and
back yields the same value: fromEngine (toEngine v) = v. -/
theorem bridge_roundtrip (v : Json) (hsafe : safeNumbers v = true) :
    fromV8 (toV8 v) = .ok v :=
  fromV8_toV8 v

/-- Witness for C5 at a concrete safe JSON value. -/
theorem bridge_roundtrip_witness :
    safeNumbers (.obj [("pull_request", .obj [("url", .str "http://example.com")]),
      ("n", .num 42), ("a", .arr [.null, .bool true])]) = true ∧
    fromV8 (toV8 (.obj [("pull_request", .obj [("url", .str "http://example.com")]),
      ("n", .num 42), ("a", .arr [.null, .bool true])]))
      = .ok (.obj [("pull_request", .obj [("url", .str "http://example.com")]),
      ("n", .num 42), ("a", .arr [.null, .bool true])]) :=
  ⟨by decide, bridge_roundtrip _ (by decide)⟩

/-- C2.  Field access: for the payload with pull_request.url set to
http://example.com and the configured source body.pull_request.url;,
evaluation succeeds and the value extracted back to JSON is the string
http://example.com. -/
theorem field_access_url :
    runEvaluation handlerSource
      (.obj [("pull_request", .obj [("url", .str "http://example.com")])])
      = .ok (.str "http://example.com") := rfl

/-- C4.  Missing-field pass-through: for the payload with no fields, a
script reading an absent property of the global body evaluates
successfully (no runtime error) and the result converts back to JSON
null. -/
theorem missing_field_null :
    runEvaluation (.propGet (.globalGet "body") "missing") (.obj [])
      = .ok .null := rfl

/-- C8.  Configuration loading: with no configuration file at the fixed
path, load_config succeeds with the default listen = 0.0.0.0:3000; a
file at that path carrying a listen entry overrides the default. -/
theorem load_config_default :
    load_config none = .ok ⟨"0.0.0.0:3000"⟩ ∧
    load_config (some none) = .ok ⟨"0.0.0.0:3000"⟩ ∧
    ∀ s : String, load_config (some (some s)) = .ok ⟨s⟩ :=
  ⟨rfl, rfl, fun _ => rfl⟩

/-- C10.  Determinism of evaluation: the script source is the fixed
constant handlerSource, and two sequential invocations of the request
handler on the same payload produce the same outcome. -/
theorem evaluation_deterministic (p : Json) :
    (runTwoRequests handlerSource p handlerSource p).1
      = (runTwoRequests handlerSource p handlerSource p).2 ∧
    (runTwoRequests handlerSource p handlerSource p).1
      = runEvaluation handlerSource p :=
  ⟨rfl, rfl⟩

/-- C3 counterexample.  In the error enum of src/src/lib.rs:10-25, a
compile-time error and a runtime error are NOT reported as distinct
kinds: both failure sites of execute_script_static are reported under
the same variant, Error::DenoCore. -/
theorem compile_runtime_same_variant :
    siteVariant .compile = siteVariant .runtime ∧
    siteVariant .compile = .denoCore := by decide

/-- C3 (amended).  Compile-time and runtime script errors are both
reported under the single DenoCore variant; that shared variant is
distinct from the serde conversion variant DenoSerdeV8 (under which both
injection-time conversion failures and result serialization failures
are reported) and from the binding-refusal error JSRuntimePassError. -/
theorem error_taxonomy_variants :
    siteVariant .compile = .denoCore ∧
    siteVariant .runtime = .denoCore ∧
    siteVariant .injectionConvert = .denoSerdeV8 ∧
    siteVariant .resultSerialize = .denoSerdeV8 ∧
    siteVariant .bindingRefused = .jsRuntimePass ∧
    siteVariant .compile ≠ siteVariant .injectionConvert ∧
    siteVariant .compile ≠ siteVariant .bindingRefused ∧
    siteVariant .injectionConvert ≠ siteVariant .bindingRefused := by decide

/-- C7.  HTTP outcome mapping: handle_webhook answers status 200 with an
empty body exactly when real_handler succeeds, and answers status 500
with the formatted plain-text error description on every failure. -/
theorem http_outcome_mapping (b : Json) (e : Error) :
    ((handleWebhook b).1 = 200 ∧ (handleWebhook b).2 = "" ↔
       realHandler b = .ok ()) ∧
    (realHandler b = .error e →
       handleWebhook b = (500, "Something went wrong: " ++ e.message)) := by
  constructor
  · cases hb : realHandler b with
    | ok u => cases u; simp [handleWebhook, hb]
    | error err => simp [handleWebhook, hb]
  · intro hb
    simp [handleWebhook, hb]

/-- Witness for C7: the empty-object payload makes the fixed script fail
at runtime and the response is 500 with the error text, while the
payload carrying pull_request.url gets status 200. -/
theorem http_outcome_mapping_witness :
    handleWebhook (.obj []) = (500,
      "Something went wrong: TypeError: Cannot read properties of undefined (reading url)") ∧
    (handleWebhook
      (.obj [("pull_request", .obj [("url", .str "http://example.com")])])).1 = 200 :=
  ⟨(http_outcome_mapping (.obj [])
      (.DenoCore "TypeError: Cannot read properties of undefined (reading url)")).2 rfl,
   ((http_outcome_mapping
      (.obj [("pull_request", .obj [("url", .str "http://example.com")])])
      .JSRuntimePassError).1.mpr rfl).1⟩

/-- C9.  Injection failure skips evaluation: when the payload conversion
into the engine value model fails, or the engine refuses the key string
or the global binding, real_handler returns the injection error and the
script source is evaluated zero times. -/
theorem injection_failure_skips_evaluation
    (toEngine : Json → Except Error V8Value) (s : Expr) (b : Json) :
    (∀ e, toEngine b = .error e →
       realHandlerGen toEngine true s b = (.error e, 0)) ∧
    (∀ v, toEngine b = .ok v →
       realHandlerGen toEngine false s b = (.error .JSRuntimePassError, 0)) := by
  constructor
  · intro e he; simp [realHandlerGen, he]
  · intro v hv; simp [realHandlerGen, hv]

/-- Witness for C9 at a concrete failing conversion and a concrete
refused binding. -/
theorem injection_failure_skips_evaluation_witness :
    realHandlerGen (fun _ => .error (.DenoSerdeV8 "conversion failed")) true
      handlerSource (.obj []) = (.error (.DenoSerdeV8 "conversion failed"), 0) ∧
    realHandlerGen (fun b => .ok (toV8 b)) false handlerSource (.obj [])
      = (.error .JSRuntimePassError, 0) :=
  ⟨(injection_failure_skips_evaluation _ _ _).1 _ rfl,
   (injection_failure_skips_evaluation _ _ _).2 _ rfl⟩

/-- C1.  Isolation across requests: every invocation creates a fresh,
empty context, so in two sequential evaluations the second never
observes a global set by the first — reading any global other than the
bound payload yields the absent sentinel (JSON null), whatever script
ran before; by contrast, within one context a set global is observed
by a later read. -/
theorem isolation_across_requests (s1 : Expr) (p1 p2 : Json)
    (name : String) (v : V8Value) (hname : name ≠ "body") :
    (runTwoRequests s1 p1 (.globalGet name) p2).2 = .ok .null ∧
    (∀ ctx1 r1,
       evalExpr (ScriptContext.new.setGlobal "body" (toV8 p1))
         (.globalSet name (.lit v)) = .ok (ctx1, r1) →
       evalExpr ctx1 (.globalGet name) = .ok (ctx1, v)) := by
  have hbeq : (name == "body") = false := by
    simpa using hname
  constructor
  · show runEvaluation (.globalGet name) p2 = .ok .null
    simp [runEvaluation, realHandlerGen, evalExpr, ScriptContext.new,
      ScriptContext.setGlobal, ScriptContext.getGlobal, List.lookup, hbeq, fromV8]
  · intro ctx1 r1 h
    simp [evalExpr, Bind.bind, Except.bind] at h
    obtain ⟨h1, h2⟩ := h
    subst h1
    simp [evalExpr, ScriptContext.getGlobal, ScriptContext.setGlobal, List.lookup]

/-- Witness for C1: the first request sets the global x, the second
request reads x and observes the absent sentinel. -/
theorem isolation_across_requests_witness :
    (runTwoRequests (.globalSet "x" (.lit (.vnum 1))) (.obj [])
      (.globalGet "x") (.obj [])).2 = .ok .null :=
  (isolation_across_requests (.globalSet "x" (.lit (.vnum 1))) (.obj []) (.obj [])
    "x" (.vnum 1) (by decide)).1

/-- If some field of a heap object fails to convert, the field-wise
conversion of the object fails. -/
theorem fromV8GraphObj_error (h : V8Heap) (rem : List Nat) :
    ∀ (fs : List (String × Nat)) (k : String) (r : Nat),
      (k, r) ∈ fs → (∃ c, fromV8Graph h rem r = .error c) →
      ∃ e, fromV8GraphObj h rem fs = .error e := by
  intro fs
  induction fs with
  | nil => intro k r hmem _; simp at hmem
  | cons hd tl ih =>
    intro k r hmem hc
    obtain ⟨k0, r0⟩ := hd
    rcases List.mem_cons.mp hmem with heq | htl
    · obtain ⟨c, hcc⟩ := hc
      cases heq
      refine ⟨c, ?_⟩
      rw [fromV8GraphObj]
      simp [hcc, Bind.bind, Except.bind]
    · cases hfr : fromV8Graph h rem r0 with
      | error e0 =>
        refine ⟨e0, ?_⟩
        rw [fromV8GraphObj]
        simp [hfr, Bind.bind, Except.bind]
      | ok j =>
        obtain ⟨e, he⟩ := ih k r htl hc
        refine ⟨e, ?_⟩
        rw [fromV8GraphObj]
        simp [hfr, he, Bind.bind, Except.bind]

/-- C6.  Non-representable evaluation results: the fromEngine conversion
is a total function (it terminates on every heap value), a callable
value converts to an explicit serialization failure, and a
self-referential object is caught by the cycle detection and converts to
a serialization failure rather than succeeding or diverging. -/
theorem nonrepresentable_result_errors (h : V8Heap) (r : Nat)
    (fs : List (String × Nat)) (k : String) :
    (h[r]? = some .nFun → fromEngineGraph h r = .error .unsupportedType) ∧
    (h[r]? = some (.nObj fs) → (k, r) ∈ fs →
      ∃ e, fromEngineGraph h r = .error e) := by
  have hrange : ∀ x : V8Node, h[r]? = some x → r ∈ List.range h.length := by
    intro x hx
    have hlt : r < h.length := by
      by_contra hge
      push_neg at hge
      rw [List.getElem?_eq_none hge] at hx
      cases hx
    simpa [List.mem_range] using hlt
  constructor
  · intro hfun
    have hmem := hrange _ hfun
    unfold fromEngineGraph
    rw [fromV8Graph]
    simp [hmem, hfun]
  · intro hobj hmemfs
    have hmem := hrange _ hobj
    have hnotmem : r ∉ (List.range h.length).erase r :=
      List.Nodup.not_mem_erase (List.nodup_range _)
    have hcyc : fromV8Graph h ((List.range h.length).erase r) r
        = .error .cyclic := by
      rw [fromV8Graph]; simp [hnotmem]
    obtain ⟨e, he⟩ := fromV8GraphObj_error h ((List.range h.length).erase r)
      fs k r hmemfs ⟨_, hcyc⟩
    refine ⟨e, ?_⟩
    unfold fromEngineGraph
    rw [fromV8Graph]
    simp [hmem, hobj, he, Except.map]

/-- Witness for C6 at a concrete callable node and a concrete
self-referential object node. -/
theorem nonrepresentable_result_errors_witness :
    fromEngineGraph [V8Node.nFun] 0 = .error .unsupportedType ∧
    ∃ e, fromEngineGraph [V8Node.nObj [("self", 0)]] 0 = .error e :=
  ⟨(nonrepresentable_result_errors [V8Node.nFun] 0 [] "self").1 rfl,
   (nonrepresentable_result_errors [V8Node.nObj [("self", 0)]] 0
      [("self", 0)] "self").2 rfl (by decide)⟩

end Whinator
